import Mathlib

set_option maxRecDepth 40000

/-!
Verification of the Myntra page-optimization automation repository.

The development shallowly embeds the two core modules:

* `page_optimizer.py` — the Page Audit Funnel (`analyze_myntra_page` and its
  four checks), modelled as pure functions over an `AuditPage` record of
  DOM-extraction outcomes;
* `google_rank_finder.py` — the Result Scanner
  (`_find_rank_on_current_page`), the CAPTCHA gate (`handle_captcha`) and the
  Rank Search Orchestrator (`find_google_rank`), modelled over records of
  per-page extraction outcomes.

Python strings are embedded as Lean `String`; the helper functions below
mirror the exact Python primitives the source uses (`in` substring test,
`str.split()` word counting, the `\d+` first-number regex, `len`).

Each extraction a check performs is modelled by a `Fetch` value: `ok v` for a
successful extraction, `noSuch` for selenium's `NoSuchElementException`, and
`err` for any other exception, because the source handles the two exception
classes differently.
-/

/-- Outcome of a single selenium DOM extraction: success, the element was
absent (`NoSuchElementException`), or some other exception was raised. -/
inductive Fetch (α : Type) where
  | ok : α → Fetch α
  | noSuch : Fetch α
  | err : Fetch α
deriving DecidableEq, Repr

/-- `frontMatches pat l` is true when `pat` is an initial segment of `l`. -/
def frontMatches : List Char → List Char → Bool
  | [], _ => true
  | _ :: _, [] => false
  | a :: as, b :: bs => a = b && frontMatches as bs

/-- `hasSubseg hay pat` is true when `pat` occurs contiguously inside `hay`
(the semantics of Python's `pat in hay` on strings, including the empty
pattern matching everything). -/
def hasSubseg : List Char → List Char → Bool
  | [], pat => pat.isEmpty
  | c :: rest, pat => frontMatches pat (c :: rest) || hasSubseg rest pat

/-- Python's `pat in s` substring test. -/
def strContains (s pat : String) : Bool := hasSubseg s.data pat.data

/-- A string consisting entirely of whitespace (what Python's
`not s.strip()` detects on a non-`None` string). -/
def isBlankCL (l : List Char) : Bool := l.all Char.isWhitespace

/-- Counts maximal runs of non-whitespace characters; the flag records
whether we are currently inside a word. -/
def countWordsAux : List Char → Bool → Nat
  | [], _ => 0
  | c :: rest, inWord =>
    if c.isWhitespace then countWordsAux rest false
    else (if inWord then 0 else 1) + countWordsAux rest true

/-- Python's `len(s.split())`: the number of whitespace-separated words. -/
def wordCount (s : String) : Nat := countWordsAux s.data false

/-- Accumulates the numeric value of a digit run (`int` on the matched text). -/
def digitsVal : List Char → Nat → Nat
  | [], acc => acc
  | c :: rest, acc => digitsVal rest (acc * 10 + (c.toNat - 48))

/-- The `re.search(r"\d+", s)` primitive: the value of the first maximal
digit run in the character list, if any. -/
def firstNumber : List Char → Option Nat
  | [] => none
  | c :: rest =>
    if c.isDigit then some (digitsVal (c :: rest.takeWhile Char.isDigit) 0)
    else firstNumber rest

/-- Python's `s.replace(",", "")` applied before the number search. -/
def removeCommas (s : String) : List Char := s.data.filter (fun c => c != ',')

/-!  ## page_optimizer.py : the Page Audit Funnel  -/

/-- The DOM-extraction outcomes `analyze_myntra_page` and its checks consult:
the `span.title-corrections` no-results indicator (present or not),
`driver.title` (selenium yields `""` when the title is missing), the
`meta[name="description"]` content (after the source's `or ""`), the text of
the `span.title-count` product-count element, and the text of the
`div.index-seoContainer` SEO block. -/
structure AuditPage where
  deletionIndicator : Fetch Bool
  title : Fetch String
  metaDesc : Fetch String
  productCountText : Fetch String
  seoContentText : Fetch String
deriving DecidableEq, Repr

/-- `check_for_deletion`: true when the no-results indicator is found; any
exception during the lookup is logged and the function returns `False`. -/
def check_for_deletion (p : AuditPage) : Bool :=
  match p.deletionIndicator with
  | Fetch.ok b => b
  | _ => false

/-- `check_for_tm_optimization`: missing title, missing meta-description tag,
a placeholder glyph in the description, a title length outside `[45, 70]` or
a description length outside `[145, 165]` each report an issue; a
`NoSuchElementException` on the meta tag returns `True`, while any other
exception falls to the outer handler, which returns `False`. -/
def check_for_tm_optimization (p : AuditPage) : Bool :=
  match p.title with
  | Fetch.ok t =>
    if t = "" then true
    else
      match p.metaDesc with
      | Fetch.noSuch => true
      | Fetch.err => false
      | Fetch.ok m =>
        if strContains m "✯" then true
        else if 45 ≤ t.length ∧ t.length ≤ 70 then
          if 145 ≤ m.length ∧ m.length ≤ 165 then false else true
        else true
  | _ => false

/-- `is_product_count_sufficient`: parses the first number out of the
comma-stripped count text and requires it to be at least 13; a missing
element, an unparsable text and any other exception all return `False`. -/
def is_product_count_sufficient (p : AuditPage) : Bool :=
  match p.productCountText with
  | Fetch.ok s =>
    match firstNumber (removeCommas s) with
    | some n => if n < 13 then false else true
    | none => false
  | _ => false

/-- `check_for_content_optimization`: a missing SEO container reports an
issue (`True`), a container with fewer than 250 words reports an issue, and
any other exception is logged and reports no issue (`False`). -/
def check_for_content_optimization (p : AuditPage) : Bool :=
  match p.seoContentText with
  | Fetch.ok s => if wordCount s < 250 then true else false
  | Fetch.noSuch => true
  | Fetch.err => false

/-- `analyze_myntra_page`: the ordered audit funnel.  The returned Python
dict `{'status': ..., 'value': ...}` is embedded as a `String × String`
pair.  `keyword` and `start_url` are parameters of the source function used
only for logging. -/
def analyze_myntra_page (keyword start_url : String) (p : AuditPage) :
    String × String :=
  if check_for_deletion p then ("Deletion", "Yes")
  else if check_for_tm_optimization p then ("T&M", "Yes")
  else if !(is_product_count_sufficient p) then
    ("Low Product Count", "Analysis stopped due to < 13 products.")
  else if check_for_content_optimization p then ("Content", "Yes")
  else ("Optimized", "All checks passed")

/-!  ## google_rank_finder.py : Result Scanner, CAPTCHA gate, Orchestrator  -/

/-- One `RESULT_CONTAINER` block on a results page: whether it carries a
`[data-text-ad]` descendant, the outcome of the `h3` heading lookup (the
heading text), and the outcome of looking up its `LINK_CONTAINER` element and
reading its `href` attribute (`ok none` models a present element whose
`href` attribute is `null`). -/
structure ResultBlock where
  isAd : Bool
  heading : Fetch String
  link : Fetch (Option String)
deriving DecidableEq, Repr

/-- Fallback block used with `List.getD` in specifications. -/
def dummyBlock : ResultBlock := ⟨false, Fetch.noSuch, Fetch.noSuch⟩

/-- A block survives the organic filter when it is not an advertisement and
its heading lookup succeeded with text that is non-empty after stripping. -/
def isOrganic (b : ResultBlock) : Bool :=
  !b.isAd &&
    (match b.heading with
     | Fetch.ok h => !(isBlankCL h.data)
     | _ => false)

/-- The `clean_organic_results` loop of `_find_rank_on_current_page`:
advertisements, blocks without an `h3` (`NoSuchElementException`, the
`continue` branch) and blocks with blank heading text are skipped; any other
exception in the loop escapes to the function's outer handler, modelled as
`none`. -/
def cleanOrganicResults : List ResultBlock → Option (List ResultBlock)
  | [] => some []
  | b :: rest =>
    if b.isAd then cleanOrganicResults rest
    else
      match b.heading with
      | Fetch.err => none
      | Fetch.noSuch => cleanOrganicResults rest
      | Fetch.ok h =>
        if isBlankCL h.data then cleanOrganicResults rest
        else (cleanOrganicResults rest).map (fun l => b :: l)

/-- A block matches when its link lookup succeeded, its `href` was non-null
and the target occurs in it as a substring (Python's `target_url in
actual_url`). -/
def blockMatches (target : String) (b : ResultBlock) : Bool :=
  match b.link with
  | Fetch.ok (some u) => strContains u target
  | _ => false

/-- The rank-assignment loop of `_find_rank_on_current_page`: the blocks of
the organic list are numbered `r, r + 1, …` by `enumerate`; a
`NoSuchElementException` on the link and a `null` `href` both skip the block
while still consuming its rank number; any other exception escapes to the
outer handler (`none`); the first block whose URL contains the target is
returned with its rank. -/
def findRankAux (target : String) : Nat → List ResultBlock → Option (Nat × String)
  | _, [] => none
  | r, b :: rest =>
    match b.link with
    | Fetch.err => none
    | Fetch.ok (some u) =>
      if strContains u target then some (r, u) else findRankAux target (r + 1) rest
    | Fetch.ok none => findRankAux target (r + 1) rest
    | Fetch.noSuch => findRankAux target (r + 1) rest

/-- A rendered results page: whether the bounded wait for at least one
result container succeeded, and the result blocks in document order. -/
structure SerpPage where
  containerAppeared : Bool
  blocks : List ResultBlock
deriving DecidableEq, Repr

/-- `_find_rank_on_current_page`: a timed-out wait for the result container,
like any exception inside the scan, is caught by the outer handler and the
function reports `(None, None)`; `enumerate(clean_organic_results,
start=1 + rank_offset)` makes the first organic block rank
`rank_offset + 1`. -/
def find_rank_on_current_page (page : SerpPage) (target : String)
    (rank_offset : Nat) : Option (Nat × String) :=
  if page.containerAppeared then
    match cleanOrganicResults page.blocks with
    | some org => findRankAux target (rank_offset + 1) org
    | none => none
  else none

/-- The source constant bounding the pagination loop. -/
def MAX_PAGES_TO_SCRAPE : Nat := 1

/-- `handle_captcha`'s polling loop, indexed by the poll number `i` and the
number of polls the wall-clock timeout still allows: the loop returns `True`
the first time the `iframe[title="reCAPTCHA"]` marker is no longer found,
and `False` once the timeout ceiling is reached. -/
def captchaLoop (marker : Nat → Bool) : Nat → Nat → Bool
  | 0, _ => false
  | fuel + 1, i => if marker i then captchaLoop marker fuel (i + 1) else true

/-- Number of marker lookups `captchaLoop` actually performs before it
returns. -/
def captchaPolls (marker : Nat → Bool) : Nat → Nat → Nat
  | 0, _ => 0
  | fuel + 1, i => if marker i then 1 + captchaPolls marker fuel (i + 1) else 1

/-- `handle_captcha`: `marker t` tells whether the CAPTCHA marker element is
still present at the `t`-th poll; `maxPolls` is the number of loop
iterations the configured `CAPTCHA_WAIT_TIMEOUT` / `CAPTCHA_CHECK_INTERVAL`
pair admits.  Returns `True` exactly when the marker disappears at some poll
inside the window.  (The one-shot email alert inside the loop does not
affect the returned value and is not modelled.) -/
def handle_captcha (marker : Nat → Bool) (maxPolls : Nat) : Bool :=
  captchaLoop marker maxPolls 0

/-- One whole rank search as `find_google_rank` observes it:
whether the query input was located inside its wait budget
(`TimeoutException` otherwise), whether some other unclassified exception is
raised during the pre-loop interaction, the rendered results page for each
page number, whether the CAPTCHA marker is present on each page, the boolean
`handle_captcha` would return there, and whether the next-page control is
present on each page. -/
structure SearchSession where
  searchBoxFound : Bool
  unexpectedRaise : Bool
  pages : Nat → SerpPage
  captchaPresent : Nat → Bool
  captchaSolved : Nat → Bool
  nextPresent : Nat → Bool

/-- The `for page_num in range(1, MAX_PAGES_TO_SCRAPE + 1)` loop of
`find_google_rank`: a CAPTCHA that times out breaks out of the loop, a
successful scan returns immediately, a missing next-page control breaks, and
otherwise the loop advances to the next page with the rank offset increased
by 10.  `none` models falling out of the loop (the `return "Not Found", ""`
at the end of the function). -/
def rankLoop (sess : SearchSession) (target : String) :
    Nat → Nat → Nat → Option (Nat × String)
  | 0, _, _ => none
  | fuel + 1, pageNum, offset =>
    if sess.captchaPresent pageNum && !(sess.captchaSolved pageNum) then none
    else
      match find_rank_on_current_page (sess.pages pageNum) target offset with
      | some ru => some ru
      | none =>
        if sess.nextPresent pageNum then
          rankLoop sess target fuel (pageNum + 1) (offset + 10)
        else none

/-- `find_google_rank`: the whole body runs under a `try` whose
`TimeoutException` handler (query input never located) and generic handler
(any unclassified exception) both fall through to `return "Not Found", ""`;
a found target is returned as `(str(rank), url)`.  `keyword` is typed into
the search box and logged but does not influence the returned value given
the session's page contents. -/
def find_google_rank (maxPages : Nat) (sess : SearchSession)
    (keyword target : String) : String × String :=
  if !sess.searchBoxFound then ("Not Found", "")
  else if sess.unexpectedRaise then ("Not Found", "")
  else
    match rankLoop sess target maxPages 1 0 with
    | some (r, u) => (toString r, u)
    | none => ("Not Found", "")

/-!  ## Claims about the Page Audit Funnel  -/

/-- C1: the audit funnel is an ordered decision list that stops at the first
matching rule; in particular a page that carries both the no-results
indicator and a Title/Meta violation is classified `Deletion` only — the
Title/Meta rule never contributes to the outcome. -/
theorem claim_C1_funnel_shortcircuit (kw url : String) (p : AuditPage)
    (hdel : p.deletionIndicator = Fetch.ok true)
    (htm : check_for_tm_optimization p = true) :
    analyze_myntra_page kw url p = ("Deletion", "Yes") := by
  simp [analyze_myntra_page, check_for_deletion, hdel]

/-- Concrete page for the C1 witness: the no-results indicator is present
and the 5-character title is a Title/Meta (title-length) violation. -/
def pageC1 : AuditPage :=
  ⟨Fetch.ok true, Fetch.ok "short", Fetch.ok "meta text",
    Fetch.ok "20 items", Fetch.ok "some words"⟩

/-- Witness for C1 at a concrete page having both signals. -/
theorem claim_C1_witness :
    analyze_myntra_page "red shoes" "https://m" pageC1 = ("Deletion", "Yes") :=
  claim_C1_funnel_shortcircuit "red shoes" "https://m" pageC1 rfl (by decide)

/-- Concrete page for C3: no-results indicator present, audited keyword
"red shoes". -/
def pageC3 : AuditPage :=
  ⟨Fetch.ok true, Fetch.ok "t", Fetch.ok "m", Fetch.ok "20", Fetch.ok "w"⟩

/-- C3 counterexample: on a page with the no-results indicator the funnel
returns the fixed value payload `"Yes"`, not the keyword being audited, so
the claimed value payload (`value = keyword`) is wrong at this input. -/
theorem claim_C3_counterexample :
    analyze_myntra_page "red shoes" "https://m" pageC3 ≠ ("Deletion", "red shoes") ∧
    analyze_myntra_page "red shoes" "https://m" pageC3 = ("Deletion", "Yes") := by
  decide

/-- C3 amended: when the no-results indicator is present the funnel returns
category `Deletion` with the fixed value payload `"Yes"`; the keyword itself
is only written to the ledger by the orchestration layer. -/
theorem claim_C3_amended_deletion_value (kw url : String) (p : AuditPage)
    (hdel : p.deletionIndicator = Fetch.ok true) :
    analyze_myntra_page kw url p = ("Deletion", "Yes") := by
  simp [analyze_myntra_page, check_for_deletion, hdel]

/-- Witness for the amended C3 at a concrete page. -/
theorem claim_C3_witness :
    analyze_myntra_page "red shoes" "https://m" pageC3 = ("Deletion", "Yes") :=
  claim_C3_amended_deletion_value "red shoes" "https://m" pageC3 rfl

/-!  ## Claims about the Rank Search Orchestrator  -/

/-- C9: a timeout locating the query input and any unclassified exception
raised during a rank search are caught inside `find_google_rank` and
converted to the `("Not Found", "")` outcome for that task; being a total
function, the model propagates no exception to the caller. -/
theorem claim_C9_exception_containment (maxPages : Nat) (sess : SearchSession)
    (kw target : String)
    (h : sess.searchBoxFound = false ∨ sess.unexpectedRaise = true) :
    find_google_rank maxPages sess kw target = ("Not Found", "") := by
  rcases h with h | h
  · simp [find_google_rank, h]
  · by_cases hb : sess.searchBoxFound <;> simp [find_google_rank, h, hb]

/-- Session for the C9 witness: the query input is never located. -/
def sessC9 : SearchSession :=
  ⟨false, false, fun _ => ⟨true, []⟩, fun _ => false, fun _ => false,
    fun _ => false⟩

/-- Witness for C9: the timed-out search-box lookup degrades to
`("Not Found", "")`. -/
theorem claim_C9_witness :
    find_google_rank 1 sessC9 "red shoes" "shop.example" = ("Not Found", "") :=
  claim_C9_exception_containment 1 sessC9 "red shoes" "shop.example"
    (Or.inl rfl)

/-!  ## Result Scanner lemmas  -/

/-- When the filtering loop completes without an escaping exception, the
organic list is exactly the document-order sublist of blocks that are
neither advertisements nor heading-less nor blank-headed. -/
theorem cleanOrganicResults_eq_filter :
    ∀ {bs org : List ResultBlock}, cleanOrganicResults bs = some org →
      org = List.filter isOrganic bs := by
  intro bs
  induction bs with
  | nil =>
    intro org h
    simp [cleanOrganicResults] at h
    subst h
    simp
  | cons b rest ih =>
    intro org h
    by_cases had : b.isAd
    · simp only [cleanOrganicResults, if_pos had] at h
      simp [List.filter_cons, isOrganic, had]
      exact ih h
    · cases hh : b.heading with
      | err => simp [cleanOrganicResults, had, hh] at h
      | noSuch =>
        simp only [cleanOrganicResults, if_neg had, hh] at h
        simp [List.filter_cons, isOrganic, had, hh]
        exact ih h
      | ok hd =>
        by_cases hbl : isBlankCL hd.data
        · simp only [cleanOrganicResults, if_neg had, hh, if_pos hbl] at h
          simp [List.filter_cons, isOrganic, had, hh, hbl]
          exact ih h
        · simp only [cleanOrganicResults, if_neg had, hh, if_neg hbl,
            Option.map_eq_some'] at h
          obtain ⟨l, hl, horg⟩ := h
          have : isOrganic b = true := by
            simp [isOrganic, had, hh, hbl]
          rw [List.filter_cons, if_pos this, ← horg, ih hl]

/-- Any rank the matching loop reports lies in the window the starting rank
and the organic-list length determine. -/
theorem findRankAux_range (target : String) :
    ∀ (l : List ResultBlock) (r0 r : Nat) (u : String),
      findRankAux target r0 l = some (r, u) → r0 ≤ r ∧ r < r0 + l.length := by
  intro l
  induction l with
  | nil => intro r0 r u h; simp [findRankAux] at h
  | cons b rest ih =>
    intro r0 r u h
    cases hl : b.link with
    | err => simp [findRankAux, hl] at h
    | noSuch =>
      simp only [findRankAux, hl] at h
      have := ih (r0 + 1) r u h
      simp only [List.length_cons]
      omega
    | ok o =>
      cases o with
      | none =>
        simp only [findRankAux, hl] at h
        have := ih (r0 + 1) r u h
        simp only [List.length_cons]
        omega
      | some u0 =>
        simp only [findRankAux, hl] at h
        by_cases hc : strContains u0 target
        · rw [if_pos hc] at h
          obtain ⟨hr, hu⟩ := Prod.mk.injEq .. ▸ Option.some.injEq .. ▸ h
          simp only [List.length_cons]
          omega
        · rw [if_neg hc] at h
          have := ih (r0 + 1) r u h
          simp only [List.length_cons]
          omega

/-- Full behaviour of the matching loop on a list of blocks none of which
raises an unclassified exception on link extraction: it returns `none`
exactly when no block matches, and a returned `(rank, url)` pair comes from
the block at position `rank - r0` with all earlier blocks non-matching. -/
theorem findRankAux_spec (target : String) :
    ∀ (l : List ResultBlock) (r0 : Nat), (∀ b ∈ l, b.link ≠ Fetch.err) →
      ((findRankAux target r0 l = none ↔
          ∀ b ∈ l, blockMatches target b = false) ∧
       (∀ r u, findRankAux target r0 l = some (r, u) →
         ∃ i, i < l.length ∧ r = r0 + i ∧
           (l.getD i dummyBlock).link = Fetch.ok (some u) ∧
           strContains u target = true ∧
           ∀ b ∈ l.take i, blockMatches target b = false)) := by
  intro l
  induction l with
  | nil =>
    intro r0 _
    refine ⟨by simp [findRankAux], ?_⟩
    intro r u h
    simp [findRankAux] at h
  | cons b rest ih =>
    intro r0 herr
    have hb : b.link ≠ Fetch.err := herr b (by simp)
    have hrest : ∀ x ∈ rest, x.link ≠ Fetch.err := fun x hx =>
      herr x (by simp [hx])
    obtain ⟨ihn, ihs⟩ := ih (r0 + 1) hrest
    cases hl : b.link with
    | err => exact absurd hl hb
    | noSuch =>
      have hbm : blockMatches target b = false := by simp [blockMatches, hl]
      constructor
      · simp only [findRankAux, hl, List.forall_mem_cons, hbm]
        rw [ihn]
        simp
      · intro r u h
        simp only [findRankAux, hl] at h
        obtain ⟨i, hi, hr, hget, hcon, htake⟩ := ihs r u h
        refine ⟨i + 1, by simpa using Nat.succ_lt_succ hi, by omega,
          by simpa [List.getD_cons_succ] using hget, hcon, ?_⟩
        intro x hx
        rw [List.take_succ_cons] at hx
        rcases List.mem_cons.mp hx with hx | hx
        · rw [hx]; exact hbm
        · exact htake x hx
    | ok o =>
      cases o with
      | none =>
        have hbm : blockMatches target b = false := by simp [blockMatches, hl]
        constructor
        · simp only [findRankAux, hl, List.forall_mem_cons, hbm]
          rw [ihn]
          simp
        · intro r u h
          simp only [findRankAux, hl] at h
          obtain ⟨i, hi, hr, hget, hcon, htake⟩ := ihs r u h
          refine ⟨i + 1, by simpa using Nat.succ_lt_succ hi, by omega,
            by simpa [List.getD_cons_succ] using hget, hcon, ?_⟩
          intro x hx
          rw [List.take_succ_cons] at hx
          rcases List.mem_cons.mp hx with hx | hx
          · rw [hx]; exact hbm
          · exact htake x hx
      | some u0 =>
        by_cases hc : strContains u0 target
        · have hbm : blockMatches target b = true := by
            simp [blockMatches, hl, hc]
          constructor
          · simp only [findRankAux, hl, if_pos hc, List.forall_mem_cons, hbm]
            simp
          · intro r u h
            simp only [findRankAux, hl, if_pos hc, Option.some.injEq,
              Prod.mk.injEq] at h
            obtain ⟨hr, hu⟩ := h
            refine ⟨0, by simp, by omega, ?_, ?_, by simp⟩
            · simp [List.getD_cons_zero, hl, hu]
            · rw [← hu]; exact hc
        · have hbm : blockMatches target b = false := by
            simp [blockMatches, hl]
            exact Bool.not_eq_true _ ▸ hc
          constructor
          · simp only [findRankAux, hl, if_neg hc, List.forall_mem_cons, hbm]
            rw [ihn]
            simp
          · intro r u h
            simp only [findRankAux, hl, if_neg hc] at h
            obtain ⟨i, hi, hr, hget, hcon, htake⟩ := ihs r u h
            refine ⟨i + 1, by simpa using Nat.succ_lt_succ hi, by omega,
              by simpa [List.getD_cons_succ] using hget, hcon, ?_⟩
            intro x hx
            rw [List.take_succ_cons] at hx
            rcases List.mem_cons.mp hx with hx | hx
            · rw [hx]; exact hbm
            · exact htake x hx

/-- Skipping law of the matching loop: a block that does not match and does
not abort the scan consumes exactly one rank number. -/
theorem findRankAux_skip_cons (target : String) (r0 : Nat) (b : ResultBlock)
    (rest : List ResultBlock) (hb : b.link ≠ Fetch.err)
    (hm : blockMatches target b = false) :
    findRankAux target r0 (b :: rest) = findRankAux target (r0 + 1) rest := by
  cases hl : b.link with
  | err => exact absurd hl hb
  | noSuch => simp [findRankAux, hl]
  | ok o =>
    cases o with
    | none => simp [findRankAux, hl]
    | some u =>
      have hc : strContains u target = false := by
        simpa [blockMatches, hl] using hm
      simp [findRankAux, hl, hc]

/-!  ## Claims about the Result Scanner  -/

/-- C2: when the filtering pass completes, the organic list is exactly the
document-order sublist of blocks that are neither flagged as advertisements
nor lacking non-empty heading text — so flagged or heading-less entries are
never ranked nor considered — and any rank the scanner reports for offset
`o` lies in `o + 1 … o + k` where `k` is the organic-list length. -/
theorem claim_C2_scanner_filter_ranks (bs org : List ResultBlock)
    (target : String) (o : Nat)
    (horg : cleanOrganicResults bs = some org) :
    org = List.filter isOrganic bs ∧
    (∀ b ∈ org, b.isAd = false ∧
      ∃ hd, b.heading = Fetch.ok hd ∧ isBlankCL hd.data = false) ∧
    (∀ r u, findRankAux target (o + 1) org = some (r, u) →
      o + 1 ≤ r ∧ r ≤ o + org.length) := by
  refine ⟨cleanOrganicResults_eq_filter horg, ?_, ?_⟩
  · intro b hbmem
    have hborg : isOrganic b = true := by
      rw [cleanOrganicResults_eq_filter horg] at hbmem
      exact (List.mem_filter.mp hbmem).2
    rw [isOrganic, Bool.and_eq_true] at hborg
    obtain ⟨h1, h2⟩ := hborg
    refine ⟨by simpa using h1, ?_⟩
    cases hh : b.heading with
    | ok hd =>
      rw [hh] at h2
      exact ⟨hd, rfl, by simpa using h2⟩
    | noSuch => rw [hh] at h2; simp at h2
    | err => rw [hh] at h2; simp at h2
  · intro r u h
    have := findRankAux_range target org (o + 1) r u h
    omega

/-- Concrete results page for the C2 witness: an advertisement, a blank
heading and a missing heading interleave with two organic entries. -/
def bsC2 : List ResultBlock :=
  [⟨true, Fetch.ok "Sponsored", Fetch.ok (some "http://ad.example/x")⟩,
   ⟨false, Fetch.ok "First", Fetch.ok (some "http://other.com")⟩,
   ⟨false, Fetch.ok "   ", Fetch.ok (some "http://blank.example/x")⟩,
   ⟨false, Fetch.noSuch, Fetch.ok (some "http://nohead.example/x")⟩,
   ⟨false, Fetch.ok "Second", Fetch.ok (some "http://foo.example.com/x")⟩]

/-- The organic sublist of `bsC2`. -/
def orgC2 : List ResultBlock :=
  [⟨false, Fetch.ok "First", Fetch.ok (some "http://other.com")⟩,
   ⟨false, Fetch.ok "Second", Fetch.ok (some "http://foo.example.com/x")⟩]

/-- Witness for C2: the concrete filter result and the in-window rank of the
match found at offset 0. -/
theorem claim_C2_witness :
    orgC2 = List.filter isOrganic bsC2 ∧ (0 + 1 ≤ 2 ∧ 2 ≤ 0 + orgC2.length) :=
  ⟨(claim_C2_scanner_filter_ranks bsC2 orgC2 "example.com" 0 (by decide)).1,
   (claim_C2_scanner_filter_ranks bsC2 orgC2 "example.com" 0
      (by decide)).2.2 2 "http://foo.example.com/x" (by decide)⟩

/-- C6: on a page whose scan completes without an unclassified per-entry
exception, the scanner returns the rank and URL of the first organic entry
in document order whose link URL contains the target as a substring, and
returns no match exactly when the organic list is exhausted without such an
entry. -/
theorem claim_C6_first_substring_match (page : SerpPage) (target : String)
    (o : Nat) (org : List ResultBlock)
    (happ : page.containerAppeared = true)
    (horg : cleanOrganicResults page.blocks = some org)
    (herr : ∀ b ∈ org, b.link ≠ Fetch.err) :
    (∀ r u, find_rank_on_current_page page target o = some (r, u) →
      ∃ i, i < org.length ∧ r = o + 1 + i ∧
        (org.getD i dummyBlock).link = Fetch.ok (some u) ∧
        strContains u target = true ∧
        ∀ b ∈ org.take i, blockMatches target b = false) ∧
    (find_rank_on_current_page page target o = none ↔
      ∀ b ∈ org, blockMatches target b = false) := by
  obtain ⟨hn, hs⟩ := findRankAux_spec target org (o + 1) herr
  have hfind : find_rank_on_current_page page target o =
      findRankAux target (o + 1) org := by
    simp [find_rank_on_current_page, happ, horg]
  rw [hfind]
  refine ⟨?_, hn⟩
  intro r u h
  obtain ⟨i, hi, hr, hget, hcon, htake⟩ := hs r u h
  exact ⟨i, hi, by omega, hget, hcon, htake⟩

/-- Concrete page for the C6 witness: the spec's own example, target
`example.com` against candidate URLs `http://other.com` and
`http://foo.example.com/x`. -/
def pageC6 : SerpPage :=
  ⟨true, [⟨false, Fetch.ok "Other", Fetch.ok (some "http://other.com")⟩,
          ⟨false, Fetch.ok "Foo", Fetch.ok (some "http://foo.example.com/x")⟩]⟩

/-- The organic list of `pageC6`. -/
def orgC6 : List ResultBlock :=
  [⟨false, Fetch.ok "Other", Fetch.ok (some "http://other.com")⟩,
   ⟨false, Fetch.ok "Foo", Fetch.ok (some "http://foo.example.com/x")⟩]

/-- Witness for C6: only the URL with `example.com` as substring matches,
and the match is reported at rank 2 with the non-matching entry before it. -/
theorem claim_C6_witness :
    ∃ i, i < orgC6.length ∧ 2 = 0 + 1 + i ∧
      (orgC6.getD i dummyBlock).link =
        Fetch.ok (some "http://foo.example.com/x") ∧
      strContains "http://foo.example.com/x" "example.com" = true ∧
      ∀ b ∈ orgC6.take i, blockMatches "example.com" b = false :=
  (claim_C6_first_substring_match pageC6 "example.com" 0 orgC6 rfl (by decide)
    (by decide)).1 2 "http://foo.example.com/x" (by decide)

/-- C10: ranks are fixed by position in the organic list before link
extraction — a block whose link element is missing or whose `href` is null
is skipped for matching yet behaves, for every later entry's rank, exactly
like a healthy non-matching block in the same position, wherever it sits in
the list. -/
theorem claim_C10_rank_by_position (target : String) (b bX : ResultBlock)
    (hskip : b.link = Fetch.noSuch ∨ b.link = Fetch.ok none)
    (hbX : bX.link ≠ Fetch.err) (hbXm : blockMatches target bX = false) :
    ∀ (pre : List ResultBlock) (r0 : Nat) (post : List ResultBlock),
      findRankAux target r0 (pre ++ b :: post) =
        findRankAux target r0 (pre ++ bX :: post) := by
  have hb : b.link ≠ Fetch.err := by rcases hskip with h | h <;> simp [h]
  have hbm : blockMatches target b = false := by
    rcases hskip with h | h <;> simp [blockMatches, h]
  intro pre
  induction pre with
  | nil =>
    intro r0 post
    simp only [List.nil_append]
    rw [findRankAux_skip_cons target r0 b post hb hbm,
      findRankAux_skip_cons target r0 bX post hbX hbXm]
  | cons a pre ih =>
    intro r0 post
    simp only [List.cons_append]
    cases ha : a.link with
    | err => simp [findRankAux, ha]
    | noSuch =>
      simp only [findRankAux, ha]
      exact ih (r0 + 1) post
    | ok o =>
      cases o with
      | none =>
        simp only [findRankAux, ha]
        exact ih (r0 + 1) post
      | some u =>
        by_cases hc : strContains u target
        · simp [findRankAux, ha, hc]
        · simp only [findRankAux, ha, if_neg hc]
          exact ih (r0 + 1) post

/-- A block whose link element lookup raises `NoSuchElementException`. -/
def bSkipC10 : ResultBlock := ⟨false, Fetch.ok "Skipped", Fetch.noSuch⟩

/-- A healthy non-matching block in the same position. -/
def bRealC10 : ResultBlock :=
  ⟨false, Fetch.ok "Healthy", Fetch.ok (some "http://other.com")⟩

/-- The entries after the varying block. -/
def postC10 : List ResultBlock :=
  [⟨false, Fetch.ok "Match", Fetch.ok (some "http://shop.example/p")⟩]

/-- Witness for C10: with a skipped first block the later match keeps rank
2, exactly as with a healthy non-matching first block. -/
theorem claim_C10_witness :
    findRankAux "shop.example" 1 (bSkipC10 :: postC10) =
      findRankAux "shop.example" 1 (bRealC10 :: postC10) ∧
    findRankAux "shop.example" 1 (bSkipC10 :: postC10) =
      some (2, "http://shop.example/p") :=
  ⟨claim_C10_rank_by_position "shop.example" bSkipC10 bRealC10 (Or.inl rfl)
      (by decide) (by decide) [] 1 postC10,
   by decide⟩

/-- C4: when page 1 yields no match, no CAPTCHA blocks, and the next-page
control is present, the orchestrator's loop advances to page 2 with rank
offset 10; whenever the page budget still allows it, page 2 is re-scanned at
that offset (a match there is returned as its rank); and at the source's
`MAX_PAGES_TO_SCRAPE = 1` limit, the terminal result is
`("Not Found", "")`. -/
theorem claim_C4_pagination (sess : SearchSession) (kw target : String)
    (hbox : sess.searchBoxFound = true)
    (hraise : sess.unexpectedRaise = false)
    (hcap1 : (sess.captchaPresent 1 && !(sess.captchaSolved 1)) = false)
    (hcap2 : (sess.captchaPresent 2 && !(sess.captchaSolved 2)) = false)
    (hscan1 : find_rank_on_current_page (sess.pages 1) target 0 = none)
    (hnext : sess.nextPresent 1 = true) :
    (∀ n, rankLoop sess target (n + 1) 1 0 = rankLoop sess target n 2 10) ∧
    (∀ r u, find_rank_on_current_page (sess.pages 2) target 10 = some (r, u) →
      find_google_rank 2 sess kw target = (toString r, u)) ∧
    find_google_rank MAX_PAGES_TO_SCRAPE sess kw target = ("Not Found", "") := by
  have hstep : ∀ n,
      rankLoop sess target (n + 1) 1 0 = rankLoop sess target n 2 10 := by
    intro n
    simp [rankLoop, hcap1, hscan1, hnext]
  refine ⟨hstep, ?_, ?_⟩
  · intro r u hfound
    simp [find_google_rank, hbox, hraise, rankLoop, hcap1, hcap2, hscan1,
      hnext, hfound]
  · simp [find_google_rank, MAX_PAGES_TO_SCRAPE, hbox, hraise, rankLoop,
      hcap1, hscan1, hnext]

/-- Page 1 for the C4 witness: no entry contains the target. -/
def pageOneC4 : SerpPage :=
  ⟨true, [⟨false, Fetch.ok "Other", Fetch.ok (some "http://other.com")⟩]⟩

/-- Page 2 for the C4 witness: its first organic entry is the target. -/
def pageTwoC4 : SerpPage :=
  ⟨true, [⟨false, Fetch.ok "Shop",
    Fetch.ok (some "https://shop.example/home")⟩]⟩

/-- Session for the C4 witness. -/
def sessC4 : SearchSession :=
  ⟨true, false, fun n => if n = 2 then pageTwoC4 else pageOneC4,
    fun _ => false, fun _ => false, fun _ => true⟩

/-- Witness for C4: with a two-page budget the target is found on page 2 at
rank 11 = 10 + 1; with the source's one-page limit the same session ends in
`("Not Found", "")`. -/
theorem claim_C4_witness :
    find_google_rank 2 sessC4 "red shoes" "shop.example" =
      (toString 11, "https://shop.example/home") ∧
    find_google_rank MAX_PAGES_TO_SCRAPE sessC4 "red shoes" "shop.example" =
      ("Not Found", "") :=
  ⟨(claim_C4_pagination sessC4 "red shoes" "shop.example" rfl rfl (by decide)
      (by decide) (by decide) rfl).2.1 11 "https://shop.example/home"
      (by decide),
   (claim_C4_pagination sessC4 "red shoes" "shop.example" rfl rfl (by decide)
      (by decide) (by decide) rfl).2.2⟩

/-!  ## Claim about the CAPTCHA gate  -/

/-- `captchaLoop` succeeds exactly when the marker disappears at some poll
inside the window. -/
theorem captchaLoop_iff (marker : Nat → Bool) :
    ∀ (fuel i : Nat),
      captchaLoop marker fuel i = true ↔
        ∃ t, t < fuel ∧ marker (i + t) = false := by
  intro fuel
  induction fuel with
  | zero => intro i; simp [captchaLoop]
  | succ n ih =>
    intro i
    by_cases h : marker i = true
    · simp only [captchaLoop, h, if_true]
      rw [ih (i + 1)]
      constructor
      · rintro ⟨t, ht, hm⟩
        refine ⟨t + 1, by omega, ?_⟩
        have he : i + (t + 1) = i + 1 + t := by omega
        rwa [he]
      · rintro ⟨t, ht, hm⟩
        cases t with
        | zero =>
          exfalso
          have hmf : marker i = false := by simpa using hm
          rw [h] at hmf
          simp at hmf
        | succ t =>
          refine ⟨t, by omega, ?_⟩
          have he : i + 1 + t = i + (t + 1) := by omega
          rwa [he]
    · have hf : marker i = false := by simpa using h
      simp [captchaLoop, hf]
      exact ⟨0, by omega, by simpa using hf⟩

/-- While the marker persists, every allowed poll is performed and none
beyond. -/
theorem captchaPolls_exhaust (marker : Nat → Bool) :
    ∀ (fuel i : Nat), (∀ t, t < fuel → marker (i + t) = true) →
      captchaPolls marker fuel i = fuel := by
  intro fuel
  induction fuel with
  | zero => intro i _; simp [captchaPolls]
  | succ n ih =>
    intro i hall
    have h0 : marker i = true := by simpa using hall 0 (by omega)
    have hrec := ih (i + 1) (fun t ht => by
      have h := hall (t + 1) (by omega)
      have he : i + (t + 1) = i + 1 + t := by omega
      rwa [he] at h)
    simp only [captchaPolls, h0, if_true]
    rw [hrec]
    omega

/-- C5: the CAPTCHA gate returns `true` exactly when the marker element
disappears at some poll before the timeout window closes; when the marker
persists through the whole window the gate performs exactly the allowed
polls, then returns `false` once, with no further polling afterwards. -/
theorem claim_C5_captcha_gate (marker : Nat → Bool) (maxPolls : Nat) :
    (handle_captcha marker maxPolls = true ↔
      ∃ t, t < maxPolls ∧ marker t = false) ∧
    ((∀ t, t < maxPolls → marker t = true) →
      handle_captcha marker maxPolls = false ∧
      captchaPolls marker maxPolls 0 = maxPolls) := by
  have hiff : handle_captcha marker maxPolls = true ↔
      ∃ t, t < maxPolls ∧ marker t = false := by
    have := captchaLoop_iff marker maxPolls 0
    simpa [handle_captcha] using this
  refine ⟨hiff, fun hall => ⟨?_, ?_⟩⟩
  · have hne : handle_captcha marker maxPolls ≠ true := by
      intro hh
      obtain ⟨t, ht, hm⟩ := hiff.mp hh
      rw [hall t ht] at hm
      simp at hm
    simpa using hne
  · exact captchaPolls_exhaust marker maxPolls 0
      (fun t ht => by simpa using hall t ht)

/-- Witness for C5: a marker that never disappears inside a 3-poll window
makes the gate poll exactly 3 times and fail. -/
theorem claim_C5_witness :
    handle_captcha (fun _ => true) 3 = false ∧
    captchaPolls (fun _ => true) 3 0 = 3 :=
  (claim_C5_captcha_gate (fun _ => true) 3).2 (fun _ _ => rfl)

/-!  ## Boundary and error-policy claims about the audit checks  -/

/-- C7: the audit thresholds are inclusive exactly as claimed — title
lengths 45 and 70 pass the Title/Meta length rule while 44 and 71 violate
it, a meta-description length inside `[145, 165]` passes while 144 or 166
violates, a parsed product count of 13 is sufficient while 12 is not, and a
content word count of 250 raises no issue while 249 does. -/
theorem claim_C7_audit_boundaries :
    (∀ t m : String, (t.length = 45 ∨ t.length = 70) →
      strContains m "✯" = false → 145 ≤ m.length → m.length ≤ 165 →
      check_for_tm_optimization
        ⟨Fetch.noSuch, Fetch.ok t, Fetch.ok m, Fetch.noSuch, Fetch.noSuch⟩ =
        false) ∧
    (∀ t m : String, (t.length = 44 ∨ t.length = 71) →
      check_for_tm_optimization
        ⟨Fetch.noSuch, Fetch.ok t, Fetch.ok m, Fetch.noSuch, Fetch.noSuch⟩ =
        true) ∧
    (∀ t m : String, 45 ≤ t.length → t.length ≤ 70 →
      strContains m "✯" = false → (m.length = 144 ∨ m.length = 166) →
      check_for_tm_optimization
        ⟨Fetch.noSuch, Fetch.ok t, Fetch.ok m, Fetch.noSuch, Fetch.noSuch⟩ =
        true) ∧
    (∀ s : String, firstNumber (removeCommas s) = some 13 →
      is_product_count_sufficient
        ⟨Fetch.noSuch, Fetch.noSuch, Fetch.noSuch, Fetch.ok s, Fetch.noSuch⟩ =
        true) ∧
    (∀ s : String, firstNumber (removeCommas s) = some 12 →
      is_product_count_sufficient
        ⟨Fetch.noSuch, Fetch.noSuch, Fetch.noSuch, Fetch.ok s, Fetch.noSuch⟩ =
        false) ∧
    (∀ s : String, wordCount s = 250 →
      check_for_content_optimization
        ⟨Fetch.noSuch, Fetch.noSuch, Fetch.noSuch, Fetch.noSuch, Fetch.ok s⟩ =
        false) ∧
    (∀ s : String, wordCount s = 249 →
      check_for_content_optimization
        ⟨Fetch.noSuch, Fetch.noSuch, Fetch.noSuch, Fetch.noSuch, Fetch.ok s⟩ =
        true) := by
  refine ⟨?_, ?_, ?_, ?_, ?_, ?_, ?_⟩
  · rintro t m ht hg h145 h165
    have hne : t ≠ "" := by
      intro hteq
      rw [hteq] at ht
      rcases ht with h | h <;> exact absurd h (by decide)
    have htr : 45 ≤ t.length ∧ t.length ≤ 70 := by
      rcases ht with h | h <;> omega
    have hmr : 145 ≤ m.length ∧ m.length ≤ 165 := ⟨h145, h165⟩
    simp [check_for_tm_optimization, hne, hg, htr, hmr]
  · rintro t m ht
    have hne : t ≠ "" := by
      intro hteq
      rw [hteq] at ht
      rcases ht with h | h <;> exact absurd h (by decide)
    have htr : ¬(45 ≤ t.length ∧ t.length ≤ 70) := by
      rcases ht with h | h <;> omega
    by_cases hg : strContains m "✯" = true
    · simp [check_for_tm_optimization, hne, hg]
    · have hg2 : strContains m "✯" = false := by simpa using hg
      simp [check_for_tm_optimization, hne, hg2, htr]
  · rintro t m h45 h70 hg hm
    have hne : t ≠ "" := by
      intro hteq
      rw [hteq] at h45
      exact absurd h45 (by decide)
    have htr : 45 ≤ t.length ∧ t.length ≤ 70 := ⟨h45, h70⟩
    have hmr : ¬(145 ≤ m.length ∧ m.length ≤ 165) := by
      rcases hm with h | h <;> omega
    simp [check_for_tm_optimization, hne, hg, htr, hmr]
  · intro s hp
    norm_num [is_product_count_sufficient, hp]
  · intro s hp
    norm_num [is_product_count_sufficient, hp]
  · intro s hw
    norm_num [check_for_content_optimization, hw]
  · intro s hw
    norm_num [check_for_content_optimization, hw]

/-- A string of `n` copies of `a`. -/
def repChar (n : Nat) : String := String.mk (List.replicate n 'a')

/-- A string of `n` whitespace-separated one-letter words. -/
def manyWords (n : Nat) : String :=
  String.mk (List.flatten (List.replicate n ['a', ' ']))

/-- Witness for C7 at concrete boundary inputs: titles of lengths
45/70/44/71, meta descriptions of lengths 155/145/144, count texts parsing
to 13 and 12, and contents of 250 and 249 words. -/
theorem claim_C7_witness :
    check_for_tm_optimization
      ⟨Fetch.noSuch, Fetch.ok (repChar 45), Fetch.ok (repChar 155),
        Fetch.noSuch, Fetch.noSuch⟩ = false ∧
    check_for_tm_optimization
      ⟨Fetch.noSuch, Fetch.ok (repChar 70), Fetch.ok (repChar 145),
        Fetch.noSuch, Fetch.noSuch⟩ = false ∧
    check_for_tm_optimization
      ⟨Fetch.noSuch, Fetch.ok (repChar 44), Fetch.ok (repChar 155),
        Fetch.noSuch, Fetch.noSuch⟩ = true ∧
    check_for_tm_optimization
      ⟨Fetch.noSuch, Fetch.ok (repChar 71), Fetch.ok (repChar 155),
        Fetch.noSuch, Fetch.noSuch⟩ = true ∧
    check_for_tm_optimization
      ⟨Fetch.noSuch, Fetch.ok (repChar 45), Fetch.ok (repChar 144),
        Fetch.noSuch, Fetch.noSuch⟩ = true ∧
    is_product_count_sufficient
      ⟨Fetch.noSuch, Fetch.noSuch, Fetch.noSuch, Fetch.ok "13 items",
        Fetch.noSuch⟩ = true ∧
    is_product_count_sufficient
      ⟨Fetch.noSuch, Fetch.noSuch, Fetch.noSuch, Fetch.ok "12 items",
        Fetch.noSuch⟩ = false ∧
    check_for_content_optimization
      ⟨Fetch.noSuch, Fetch.noSuch, Fetch.noSuch, Fetch.noSuch,
        Fetch.ok (manyWords 250)⟩ = false ∧
    check_for_content_optimization
      ⟨Fetch.noSuch, Fetch.noSuch, Fetch.noSuch, Fetch.noSuch,
        Fetch.ok (manyWords 249)⟩ = true :=
  ⟨claim_C7_audit_boundaries.1 (repChar 45) (repChar 155)
      (Or.inl (by decide)) (by decide) (by decide) (by decide),
   claim_C7_audit_boundaries.1 (repChar 70) (repChar 145)
      (Or.inr (by decide)) (by decide) (by decide) (by decide),
   claim_C7_audit_boundaries.2.1 (repChar 44) (repChar 155)
      (Or.inl (by decide)),
   claim_C7_audit_boundaries.2.1 (repChar 71) (repChar 155)
      (Or.inr (by decide)),
   claim_C7_audit_boundaries.2.2.1 (repChar 45) (repChar 144) (by decide)
      (by decide) (by decide) (Or.inl (by decide)),
   claim_C7_audit_boundaries.2.2.2.1 "13 items" (by decide),
   claim_C7_audit_boundaries.2.2.2.2.1 "12 items" (by decide),
   claim_C7_audit_boundaries.2.2.2.2.2.1 (manyWords 250) (by decide),
   claim_C7_audit_boundaries.2.2.2.2.2.2 (manyWords 249) (by decide)⟩

/-- Page for the C8 counterexample: every extraction succeeds and passes
its rule except the product-count text, whose extraction raises an
unclassified exception (not a missing element). -/
def pageC8 : AuditPage :=
  ⟨Fetch.ok false, Fetch.ok (repChar 50), Fetch.ok (repChar 150), Fetch.err,
    Fetch.ok (manyWords 250)⟩

/-- C8 counterexample: an extraction error in the product-count check that
is not a missing element — an unclassified exception — is treated as the
check failing (the funnel stops at `Low Product Count`), not as the check
passing as the claim states. -/
theorem claim_C8_counterexample :
    is_product_count_sufficient pageC8 = false ∧
    analyze_myntra_page "kw" "u" pageC8 =
      ("Low Product Count", "Analysis stopped due to < 13 products.") := by
  decide

/-- C8 amended: extraction errors are treated as the check passing in the
deletion, Title/Meta and content checks, but in the product-count check
both a missing element and any other extraction error count as failing, and
in the content check a missing content block counts as failing. -/
theorem claim_C8_amended_error_policy :
    (∀ p : AuditPage, p.deletionIndicator = Fetch.err →
      check_for_deletion p = false) ∧
    (∀ p : AuditPage, p.title = Fetch.err →
      check_for_tm_optimization p = false) ∧
    (∀ (p : AuditPage) (t : String), p.title = Fetch.ok t → t ≠ "" →
      p.metaDesc = Fetch.err → check_for_tm_optimization p = false) ∧
    (∀ p : AuditPage,
      p.productCountText = Fetch.err ∨ p.productCountText = Fetch.noSuch →
      is_product_count_sufficient p = false) ∧
    (∀ p : AuditPage, p.seoContentText = Fetch.noSuch →
      check_for_content_optimization p = true) ∧
    (∀ p : AuditPage, p.seoContentText = Fetch.err →
      check_for_content_optimization p = false) := by
  refine ⟨?_, ?_, ?_, ?_, ?_, ?_⟩
  · intro p h; simp [check_for_deletion, h]
  · intro p h; simp [check_for_tm_optimization, h]
  · intro p t ht hne hm; simp [check_for_tm_optimization, ht, hne, hm]
  · intro p h; rcases h with h | h <;> simp [is_product_count_sufficient, h]
  · intro p h; simp [check_for_content_optimization, h]
  · intro p h; simp [check_for_content_optimization, h]

/-- Witness for the amended C8 at concrete pages, one per error branch. -/
theorem claim_C8_witness :
    check_for_deletion
      ⟨Fetch.err, Fetch.noSuch, Fetch.noSuch, Fetch.noSuch, Fetch.noSuch⟩ =
      false ∧
    check_for_tm_optimization
      ⟨Fetch.noSuch, Fetch.err, Fetch.noSuch, Fetch.noSuch, Fetch.noSuch⟩ =
      false ∧
    check_for_tm_optimization
      ⟨Fetch.noSuch, Fetch.ok "t", Fetch.err, Fetch.noSuch, Fetch.noSuch⟩ =
      false ∧
    is_product_count_sufficient
      ⟨Fetch.noSuch, Fetch.noSuch, Fetch.noSuch, Fetch.err, Fetch.noSuch⟩ =
      false ∧
    is_product_count_sufficient
      ⟨Fetch.noSuch, Fetch.noSuch, Fetch.noSuch, Fetch.noSuch, Fetch.noSuch⟩ =
      false ∧
    check_for_content_optimization
      ⟨Fetch.noSuch, Fetch.noSuch, Fetch.noSuch, Fetch.noSuch, Fetch.noSuch⟩ =
      true ∧
    check_for_content_optimization
      ⟨Fetch.noSuch, Fetch.noSuch, Fetch.noSuch, Fetch.noSuch, Fetch.err⟩ =
      false :=
  ⟨claim_C8_amended_error_policy.1 _ rfl,
   claim_C8_amended_error_policy.2.1 _ rfl,
   claim_C8_amended_error_policy.2.2.1 _ "t" rfl (by decide) rfl,
   claim_C8_amended_error_policy.2.2.2.1 _ (Or.inl rfl),
   claim_C8_amended_error_policy.2.2.2.1 _ (Or.inr rfl),
   claim_C8_amended_error_policy.2.2.2.2.1 _ rfl,
   claim_C8_amended_error_policy.2.2.2.2.2 _ rfl⟩
